import Mathlib

/-!
Verification of the ValleOrtiz-Youtube Django application.

Shallow embedding of the functions in `videos/models.py`, `videos/views.py`
and `videos/templatetags/video_filters.py` that the claims C1-C10 are about.
Datetimes are modelled as natural numbers (seconds), database tables as
lists of records, and outbound HTTP calls as explicit outcome parameters.
-/

namespace YTApp

/-! ## Basic numeric/string helpers shared by the embedded code -/

/-- Numeric value of an ASCII digit character. -/
def digitVal (c : Char) : Nat := c.toNat - 48

/-- Value of a digit string, as computed by Python `int` on an all-digit string. -/
def digitsToNat (l : List Char) : Nat :=
  l.foldl (fun acc c => acc * 10 + digitVal c) 0

/-- Python `f"{n:02d}"` for a non-negative integer: pad with a leading zero
to a minimum width of two. -/
def pad2 (n : Nat) : String :=
  if n < 10 then "0" ++ toString n else toString n

/-! ## models.py: YouTubeAccount -/

/-- The fields of `YouTubeAccount` (models.py) relevant to the claims.
`access_token` is an `Option` because the refresh flows assign
`token_response.get('access_token')`, which may be Python `None`;
`refresh_token` is a `TextField` with `blank=True`, so `""` is its falsy
empty state; `token_expira` is a nullable `DateTimeField` modelled as an
optional timestamp in seconds. -/
structure YouTubeAccount where
  youtube_id : String
  access_token : Option String
  refresh_token : String
  token_expira : Option Nat
  nombre_canal : String
  email : String
  foto_perfil : String
  suscriptores : Int
  videos_publicados : Int
  vistas_totales : Int
deriving Repr, DecidableEq

/-- `YouTubeAccount.esta_autenticado` (models.py lines 138-150): false when
`token_expira` is null, otherwise `now < token_expira`. -/
def estaAutenticado (acc : YouTubeAccount) (now : Nat) : Bool :=
  match acc.token_expira with
  | none => false
  | some t => decide (now < t)

/-! ## models.py: YouTubeVideo.duracion_formateada -/

/-- `YouTubeVideo.duracion_formateada` (models.py lines 438-451), on a
non-negative `duracion_segundos`. -/
def duracionFormateada (duracion_segundos : Nat) : String :=
  let horas := duracion_segundos / 3600
  let minutos := (duracion_segundos % 3600) / 60
  let segundos := duracion_segundos % 60
  if horas > 0 then
    pad2 horas ++ ":" ++ pad2 minutos ++ ":" ++ pad2 segundos
  else
    pad2 minutos ++ ":" ++ pad2 segundos

/-! ## templatetags/video_filters.py: divide -/

/-- A Python exception class, as far as the `divide` filter's
`except (ValueError, ZeroDivisionError, TypeError)` clause is concerned. -/
inductive PyExc where
  | valueError
  | typeError
  | zeroDivisionError
  | overflowError
  | other (name : String)
deriving Repr, DecidableEq

instance {ε α : Type} [DecidableEq ε] [DecidableEq α] :
    DecidableEq (Except ε α)
  | .ok a, .ok b =>
    if h : a = b then .isTrue (congrArg Except.ok h)
    else .isFalse (fun hc => h (by injection hc))
  | .error a, .error b =>
    if h : a = b then .isTrue (congrArg Except.error h)
    else .isFalse (fun hc => h (by injection hc))
  | .ok _, .error _ => .isFalse (fun hc => Except.noConfusion hc)
  | .error _, .ok _ => .isFalse (fun hc => Except.noConfusion hc)

/-- A Python float as seen by `int()`: a finite value (carried here already
truncated toward zero, float arithmetic being outside the embedding), an
infinity (`int()` raises `OverflowError`), or a NaN (`int()` raises
`ValueError`). -/
inductive PyFloatVal where
  | finite (trunc : Int)
  | inf
  | negInf
  | nan
deriving Repr, DecidableEq

/-- Python values that can reach the `divide` template filter.  An
arbitrary object is modelled by the outcome of `int()` on it: an integer
from its dunder conversion, or the exception that conversion raises
(`typeError` when there is no conversion method at all). -/
inductive PyVal where
  | pyInt (n : Int)
  | pyBool (b : Bool)
  | pyFloat (f : PyFloatVal)
  | pyStr (s : String)
  | pyNone
  | pyList (elems : List String)
  | pyObj (conv : Except PyExc Int)
deriving Repr, DecidableEq

/-- The codepoints Python `int()` strips around a numeric string
(`Py_UNICODE_ISSPACE`). -/
def pySpaceCodes : List Nat :=
  [0x09, 0x0A, 0x0B, 0x0C, 0x0D, 0x1C, 0x1D, 0x1E, 0x1F, 0x20, 0x85, 0xA0,
   0x1680, 0x2000, 0x2001, 0x2002, 0x2003, 0x2004, 0x2005, 0x2006, 0x2007,
   0x2008, 0x2009, 0x200A, 0x2028, 0x2029, 0x202F, 0x205F, 0x3000]

def isPySpace (c : Char) : Bool := pySpaceCodes.contains c.toNat

/-- The Unicode 15.0 `Nd` (decimal digit) blocks, as first codepoints: each
block is ten consecutive codepoints carrying the values 0-9, and Python
`int()` accepts a digit from any of them. -/
def pyDigitBlockStarts : List Nat :=
  [0x0030, 0x0660, 0x06F0, 0x07C0, 0x0966, 0x09E6, 0x0A66, 0x0AE6, 0x0B66,
   0x0BE6, 0x0C66, 0x0CE6, 0x0D66, 0x0DE6, 0x0E50, 0x0ED0, 0x0F20, 0x1040,
   0x1090, 0x17E0, 0x1810, 0x1946, 0x19D0, 0x1A80, 0x1A90, 0x1B50, 0x1BB0,
   0x1C40, 0x1C50, 0xA620, 0xA8D0, 0xA900, 0xA9D0, 0xA9F0, 0xAA50, 0xABF0,
   0xFF10, 0x104A0, 0x10D30, 0x11066, 0x110F0, 0x11136, 0x111D0, 0x112F0,
   0x11450, 0x114D0, 0x11650, 0x116C0, 0x11730, 0x118E0, 0x11950, 0x11C50,
   0x11D50, 0x11DA0, 0x11F50, 0x16A60, 0x16AC0, 0x16B50, 0x1D7CE, 0x1D7D8,
   0x1D7E2, 0x1D7EC, 0x1D7F6, 0x1E140, 0x1E2F0, 0x1E4F0, 0x1E950, 0x1FBF0]

/-- The decimal value of a character, when it is a Unicode `Nd` digit. -/
def pyDigitVal (c : Char) : Option Nat :=
  pyDigitBlockStarts.findSome? (fun s =>
    if s ≤ c.toNat ∧ c.toNat ≤ s + 9 then some (c.toNat - s) else none)

/-- Continuation of the digit part of Python `int()` on a string: after a
digit, each further digit may be preceded by a single underscore (so
underscores sit only between digits — never leading, trailing or
doubled). -/
def parseDigitsRest (acc : Nat) : List Char → Option Nat
  | [] => some acc
  | '_' :: c :: rest =>
    match pyDigitVal c with
    | some d => parseDigitsRest (acc * 10 + d) rest
    | none => none
  | c :: rest =>
    match pyDigitVal c with
    | some d => parseDigitsRest (acc * 10 + d) rest
    | none => none

/-- The digit part of Python `int()` on a string: a first digit, then
digits with optional single separating underscores. -/
def parseDigitsU : List Char → Option Nat
  | [] => none
  | c :: rest =>
    match pyDigitVal c with
    | some d => parseDigitsRest d rest
    | none => none

/-- Python `int(s)` on a string: strip surrounding whitespace, optional
sign, then underscore-grouped Unicode decimal digits; failure raises
`ValueError`. -/
def parsePyInt (s : String) : Except PyExc Int :=
  let t := ((s.toList.dropWhile isPySpace).reverse.dropWhile
      isPySpace).reverse
  match t with
  | '-' :: ds =>
    match parseDigitsU ds with
    | some n => .ok (-(n : Int))
    | none => .error .valueError
  | '+' :: ds =>
    match parseDigitsU ds with
    | some n => .ok ((n : Int))
    | none => .error .valueError
  | ds =>
    match parseDigitsU ds with
    | some n => .ok ((n : Int))
    | none => .error .valueError

/-- Python `int(v)`: the integer, or the exception the conversion
raises. -/
def pyToInt : PyVal → Except PyExc Int
  | .pyInt n => .ok n
  | .pyBool b => .ok (if b then 1 else 0)
  | .pyFloat (.finite t) => .ok t
  | .pyFloat .inf => .error .overflowError
  | .pyFloat .negInf => .error .overflowError
  | .pyFloat .nan => .error .valueError
  | .pyStr s => parsePyInt s
  | .pyNone => .error .typeError
  | .pyList _ => .error .typeError
  | .pyObj conv => conv

/-- The exception classes named in the filter's `except` clause. -/
def caughtByDivide : PyExc → Bool
  | .valueError => true
  | .zeroDivisionError => true
  | .typeError => true
  | _ => false

/-- The `divide` template filter (video_filters.py lines 22-28):
`int(value)/int(arg)` with true (exact) division inside
`try ... except (ValueError, ZeroDivisionError, TypeError): return 0`.
`int(value)` is evaluated first; an exception outside the caught tuple
propagates out of the filter. -/
def divide (value arg : PyVal) : Except PyExc ℚ :=
  match pyToInt value with
  | .error e => if caughtByDivide e then .ok 0 else .error e
  | .ok x =>
    match pyToInt arg with
    | .error e => if caughtByDivide e then .ok 0 else .error e
    | .ok y => if y = 0 then .ok 0 else .ok ((x : ℚ) / (y : ℚ))

example : divide (.pyStr " 1_000 ") (.pyInt 4) = .ok ((1000 : ℚ) / 4) := rfl
example : divide (.pyStr "١٢") (.pyInt 2) = .ok ((12 : ℚ) / 2) := rfl
example : divide (.pyStr "１0") (.pyInt 2) = .ok ((10 : ℚ) / 2) := rfl
example : divide (.pyStr "1__0") (.pyInt 1) = .ok 0 := by decide
example : divide (.pyStr "_10") (.pyInt 1) = .ok 0 := by decide
example : divide (.pyStr "10_") (.pyInt 1) = .ok 0 := by decide
example : divide (.pyInt 1) (.pyInt 0) = .ok 0 := by decide
example : divide .pyNone (.pyInt 2) = .ok 0 := by decide
example : divide (.pyFloat (.finite 3)) (.pyInt 2) = .ok ((3 : ℚ) / 2) := rfl
example : divide (.pyFloat .inf) (.pyInt 2) = .error .overflowError := by
  decide
example : divide (.pyFloat .nan) (.pyInt 2) = .ok 0 := by decide

/-! ## views.py: the two ISO-8601 duration formatters

`_formatear_duracion_iso` (views.py lines 2215-2236) anchors the regex
`PT(?:(\d+)H)?(?:(\d+)M)?(?:(\d+)S)?` at the start of the string with
`re.match`; `_formatear_duracion` (views.py lines 1651-1672) searches for
`(\d+)H`, `(\d+)M`, `(\d+)S` anywhere with `re.search`.  Both are embedded
as deterministic parsers over `List Char`.  Because `\d+` only matches a
contiguous digit run and must be followed by the literal letter, each
optional regex group matches at a position exactly when the maximal digit
run there is non-empty and immediately followed by that letter; this makes
the deterministic parsers below faithful to the backtracking regexes. -/

/-- Maximal digit run at the head of the list, and the rest. -/
def takeDigits : List Char → List Char × List Char
  | [] => ([], [])
  | c :: r =>
    if c.isDigit then
      let p := takeDigits r
      (c :: p.1, p.2)
    else ([], c :: r)

/-- One optional regex group `(?:(\d+)X)?` at the current position: consume
a non-empty digit run plus the literal letter, or consume nothing. -/
def groupOpt (letter : Char) (s : List Char) : Option Nat × List Char :=
  match takeDigits s with
  | ([], _) => (none, s)
  | (d :: ds, c :: rest) =>
      if c = letter then (some (digitsToNat (d :: ds)), rest) else (none, s)
  | (_ :: _, []) => (none, s)

/-- `re.match` of `PT(?:(\d+)H)?(?:(\d+)M)?(?:(\d+)S)?`: requires the
literal `PT` at the start, then the three optional groups in order; absent
groups yield 0 (the code writes `int(match.group(i) or 0)`). -/
def matchPT (s : List Char) : Option (Nat × Nat × Nat) :=
  match s with
  | 'P' :: 'T' :: rest =>
    let gh := groupOpt 'H' rest
    let gm := groupOpt 'M' gh.2
    let gs := groupOpt 'S' gm.2
    some (gh.1.getD 0, gm.1.getD 0, gs.1.getD 0)
  | _ => none

/-- `re.search` of `(\d+)X`: leftmost position where a non-empty digit run
is immediately followed by the letter; returns the run's value. -/
def searchNum (letter : Char) : List Char → Option Nat
  | [] => none
  | c :: rest =>
    match (groupOpt letter (c :: rest)).1 with
    | some n => some n
    | none => searchNum letter rest

/-- The shared output formatting of both duration functions. -/
def formatHMS (h m s : Nat) : String :=
  if h > 0 then pad2 h ++ ":" ++ pad2 m ++ ":" ++ pad2 s
  else pad2 m ++ ":" ++ pad2 s

/-- `_formatear_duracion_iso` (views.py lines 2215-2236). -/
def formatearDuracionIso (duracion_iso : String) : String :=
  if duracion_iso = "" then ""
  else
    match matchPT duracion_iso.toList with
    | none => duracion_iso
    | some (h, m, s) => formatHMS h m s

/-- `_formatear_duracion` (views.py lines 1651-1672). -/
def formatearDuracion (duracion_iso : String) : String :=
  if duracion_iso = "" then "N/A"
  else
    let cs := duracion_iso.toList
    formatHMS ((searchNum 'H' cs).getD 0) ((searchNum 'M' cs).getD 0)
      ((searchNum 'S' cs).getD 0)

/-! Well-formed `PT[hH][mM][sS]` duration strings, for stating C4 and C9. -/

/-- One optional component of a well-formed duration: its digit text
followed by the unit letter, or nothing. -/
def optComp : Option (List Char) → Char → List Char
  | none, _ => []
  | some d, c => d ++ [c]

/-- The duration string `PT` + optional hour, minute, second components. -/
def mkDur (dh dm ds : Option (List Char)) : List Char :=
  'P' :: 'T' :: (optComp dh 'H' ++ optComp dm 'M' ++ optComp ds 'S')

/-- Numeric value of an optional component (0 when absent). -/
def compVal : Option (List Char) → Nat
  | none => 0
  | some d => digitsToNat d

/-- A present component must be a non-empty string of digits. -/
def validComp : Option (List Char) → Prop
  | none => True
  | some d => d ≠ [] ∧ ∀ c ∈ d, c.isDigit = true

example : formatearDuracionIso "PT1H15M30S" = "01:15:30" := by decide
example : formatearDuracionIso "PT15M30S" = "15:30" := by decide
example : formatearDuracionIso "PT45S" = "00:45" := by decide
example : formatearDuracionIso "PT" = "00:00" := by decide
example : formatearDuracionIso "" = "" := by decide
example : formatearDuracionIso "1H2M" = "1H2M" := by decide
example : formatearDuracion "PT1H15M30S" = "01:15:30" := by decide
example : formatearDuracion "PT15M30S" = "15:30" := by decide
example : formatearDuracion "" = "N/A" := by decide
example : matchPT (mkDur (some ['1']) none (some ['3', '0'])) = some (1, 0, 30) := by
  decide

/-! Parsing lemmas about digit runs, used to settle C4 and C9. -/

/-- A list whose head, if any, is not a digit. -/
def headNotDigit (l : List Char) : Prop :=
  ∀ c r, l = c :: r → c.isDigit = false

theorem takeDigits_run (d rest : List Char) (hd : ∀ c ∈ d, c.isDigit = true)
    (hr : headNotDigit rest) : takeDigits (d ++ rest) = (d, rest) := by
  induction d with
  | nil =>
    simp only [List.nil_append]
    cases rest with
    | nil => rfl
    | cons c r =>
      have hc := hr c r rfl
      simp [takeDigits, hc]
  | cons x xs ih =>
    have hx : x.isDigit = true := hd x (List.mem_cons_self x xs)
    have ih2 := ih (fun c hc => hd c (List.mem_cons_of_mem x hc))
    simp [takeDigits, hx, ih2]

theorem groupOpt_hit (letter : Char) (d rest : List Char) (hd : d ≠ [])
    (hdig : ∀ c ∈ d, c.isDigit = true) (hl : letter.isDigit = false) :
    groupOpt letter (d ++ letter :: rest) = (some (digitsToNat d), rest) := by
  have ht : takeDigits (d ++ letter :: rest) = (d, letter :: rest) :=
    takeDigits_run d (letter :: rest) hdig
      (fun c r h => by injection h with h1 _; rw [← h1]; exact hl)
  unfold groupOpt
  rw [ht]
  cases d with
  | nil => exact absurd rfl hd
  | cons x xs => simp

theorem groupOpt_miss_head (letter : Char) (s : List Char)
    (hs : headNotDigit s) : groupOpt letter s = (none, s) := by
  cases s with
  | nil => rfl
  | cons c r =>
    have hc := hs c r rfl
    simp [groupOpt, takeDigits, hc]

theorem groupOpt_miss_letter (letter : Char) (d rest : List Char) (x : Char)
    (hdig : ∀ c ∈ d, c.isDigit = true) (hx : x.isDigit = false)
    (hne : x ≠ letter) :
    groupOpt letter (d ++ x :: rest) = (none, d ++ x :: rest) := by
  have ht : takeDigits (d ++ x :: rest) = (d, x :: rest) :=
    takeDigits_run d (x :: rest) hdig
      (fun c r h => by injection h with h1 _; rw [← h1]; exact hx)
  unfold groupOpt
  rw [ht]
  cases d with
  | nil => simp
  | cons a as => simp [hne]

theorem groupOpt_digits_end (letter : Char) (d : List Char)
    (hdig : ∀ c ∈ d, c.isDigit = true) : groupOpt letter d = (none, d) := by
  have ht : takeDigits (d ++ []) = (d, []) :=
    takeDigits_run d [] hdig (fun c r h => nomatch h)
  rw [List.append_nil] at ht
  unfold groupOpt
  rw [ht]
  cases d with
  | nil => rfl
  | cons a as => rfl

theorem groupOpt_comp (letter : Char) (dc : Option (List Char)) (X : List Char)
    (hv : validComp dc) (hl : letter.isDigit = false)
    (hX : groupOpt letter X = (none, X)) :
    groupOpt letter (optComp dc letter ++ X) = (dc.map digitsToNat, X) := by
  cases dc with
  | none => simpa [optComp] using hX
  | some d =>
    have hsh : optComp (some d) letter ++ X = d ++ letter :: X := by
      simp [optComp]
    rw [hsh, groupOpt_hit letter d X hv.1 hv.2 hl]
    rfl

theorem groupOpt_skip (letter : Char) (dc : Option (List Char)) (u : Char)
    (X : List Char) (hv : validComp dc) (hu : u.isDigit = false) (hne : u ≠ letter)
    (hX : groupOpt letter X = (none, X)) :
    groupOpt letter (optComp dc u ++ X) = (none, optComp dc u ++ X) := by
  cases dc with
  | none => simpa [optComp] using hX
  | some d =>
    have hsh : optComp (some d) u ++ X = d ++ u :: X := by
      simp [optComp]
    rw [hsh]
    exact groupOpt_miss_letter letter d X u hv.2 hu hne

theorem groupOpt_comp_end (letter : Char) (dc : Option (List Char))
    (hv : validComp dc) (hl : letter.isDigit = false) :
    groupOpt letter (optComp dc letter) = (dc.map digitsToNat, []) := by
  have h := groupOpt_comp letter dc [] hv hl rfl
  simpa using h

theorem groupOpt_skip_end (letter : Char) (dc : Option (List Char)) (u : Char)
    (hv : validComp dc) (hu : u.isDigit = false) (hne : u ≠ letter) :
    groupOpt letter (optComp dc u) = (none, optComp dc u) := by
  have h := groupOpt_skip letter dc u [] hv hu hne rfl
  simpa using h

theorem searchNum_cons (letter c : Char) (rest : List Char) :
    searchNum letter (c :: rest) =
      match (groupOpt letter (c :: rest)).1 with
      | some n => some n
      | none => searchNum letter rest := rfl

theorem searchNum_cons_of_none (letter c : Char) (rest : List Char)
    (h : (groupOpt letter (c :: rest)).1 = none) :
    searchNum letter (c :: rest) = searchNum letter rest := by
  rw [searchNum_cons, h]

theorem searchNum_cons_nondigit (letter c : Char) (rest : List Char)
    (hc : c.isDigit = false) :
    searchNum letter (c :: rest) = searchNum letter rest := by
  apply searchNum_cons_of_none
  rw [groupOpt_miss_head letter (c :: rest)
    (fun a r h => by injection h with h1 _; rw [← h1]; exact hc)]

theorem searchNum_skip_run (letter : Char) (d : List Char) (x : Char)
    (rest : List Char) (hdig : ∀ c ∈ d, c.isDigit = true)
    (hx : x.isDigit = false) (hne : x ≠ letter) :
    searchNum letter (d ++ x :: rest) = searchNum letter rest := by
  induction d with
  | nil =>
    simp only [List.nil_append]
    exact searchNum_cons_nondigit letter x rest hx
  | cons a as ih =>
    have hg := groupOpt_miss_letter letter (a :: as) rest x hdig hx hne
    rw [List.cons_append] at hg
    have step : searchNum letter ((a :: as) ++ x :: rest) =
        searchNum letter (as ++ x :: rest) := by
      rw [List.cons_append]
      apply searchNum_cons_of_none
      rw [hg]
    rw [step, ih (fun c hc => hdig c (List.mem_cons_of_mem a hc))]

theorem searchNum_hit (letter : Char) (d rest : List Char) (hd : d ≠ [])
    (hdig : ∀ c ∈ d, c.isDigit = true) (hl : letter.isDigit = false) :
    searchNum letter (d ++ letter :: rest) = some (digitsToNat d) := by
  cases d with
  | nil => exact absurd rfl hd
  | cons a as =>
    have hg := groupOpt_hit letter (a :: as) rest hd hdig hl
    rw [List.cons_append, searchNum_cons]
    rw [List.cons_append] at hg
    rw [hg]

theorem searchNum_digits_end (letter : Char) (d : List Char)
    (hdig : ∀ c ∈ d, c.isDigit = true) : searchNum letter d = none := by
  induction d with
  | nil => rfl
  | cons a as ih =>
    have step : searchNum letter (a :: as) = searchNum letter as := by
      apply searchNum_cons_of_none
      rw [groupOpt_digits_end letter (a :: as) hdig]
    rw [step, ih (fun c hc => hdig c (List.mem_cons_of_mem a hc))]

/-- A component list rephrased as `digits ++ letter :: rest`. -/
theorem optComp_some_append (d : List Char) (c : Char) (X : List Char) :
    optComp (some d) c ++ X = d ++ c :: X := by
  simp [optComp]

theorem optComp_none (c : Char) : optComp none c = [] := rfl

/-- The body of a well-formed duration string, reassociated to the right. -/
theorem mkDur_eq (dh dm ds : Option (List Char)) :
    mkDur dh dm ds =
      'P' :: 'T' :: (optComp dh 'H' ++ (optComp dm 'M' ++ optComp ds 'S')) := by
  simp [mkDur, List.append_assoc]

/-- `matchPT` on a string starting with the literal `PT`. -/
theorem matchPT_cons (rest : List Char) :
    matchPT ('P' :: 'T' :: rest) =
      some ((groupOpt 'H' rest).1.getD 0,
        (groupOpt 'M' (groupOpt 'H' rest).2).1.getD 0,
        (groupOpt 'S' (groupOpt 'M' (groupOpt 'H' rest).2).2).1.getD 0) := rfl

theorem searchNum_skip_comp (letter : Char) (dc : Option (List Char)) (u : Char)
    (X : List Char) (hv : validComp dc) (hu : u.isDigit = false)
    (hne : u ≠ letter) :
    searchNum letter (optComp dc u ++ X) = searchNum letter X := by
  cases dc with
  | none => simp only [optComp_none, List.nil_append]
  | some d =>
    rw [optComp_some_append]
    exact searchNum_skip_run letter d u X hv.2 hu hne

/-- `compVal` is `getD 0` after `Option.map digitsToNat`. -/
theorem compVal_eq_getD (dc : Option (List Char)) :
    (dc.map digitsToNat).getD 0 = compVal dc := by
  cases dc <;> rfl

/-- `re.match` of the anchored pattern on a well-formed duration string
extracts exactly the three component values. -/
theorem matchPT_mkDur (dh dm ds : Option (List Char)) (h1 : validComp dh)
    (h2 : validComp dm) (h3 : validComp ds) :
    matchPT (mkDur dh dm ds) = some (compVal dh, compVal dm, compVal ds) := by
  have hS : groupOpt 'S' (optComp ds 'S') = (ds.map digitsToNat, []) :=
    groupOpt_comp_end 'S' ds h3 (by decide)
  have hS_for_M : groupOpt 'M' (optComp ds 'S') = (none, optComp ds 'S') :=
    groupOpt_skip_end 'M' ds 'S' h3 (by decide) (by decide)
  have hM : groupOpt 'M' (optComp dm 'M' ++ optComp ds 'S') =
      (dm.map digitsToNat, optComp ds 'S') :=
    groupOpt_comp 'M' dm (optComp ds 'S') h2 (by decide) hS_for_M
  have hS_for_H : groupOpt 'H' (optComp ds 'S') = (none, optComp ds 'S') :=
    groupOpt_skip_end 'H' ds 'S' h3 (by decide) (by decide)
  have hM_for_H : groupOpt 'H' (optComp dm 'M' ++ optComp ds 'S') =
      (none, optComp dm 'M' ++ optComp ds 'S') :=
    groupOpt_skip 'H' dm 'M' (optComp ds 'S') h2 (by decide) (by decide) hS_for_H
  have hH : groupOpt 'H' (optComp dh 'H' ++ (optComp dm 'M' ++ optComp ds 'S')) =
      (dh.map digitsToNat, optComp dm 'M' ++ optComp ds 'S') :=
    groupOpt_comp 'H' dh (optComp dm 'M' ++ optComp ds 'S') h1 (by decide) hM_for_H
  rw [mkDur_eq, matchPT_cons, hH]
  show some ((Option.map digitsToNat dh).getD 0,
      (groupOpt 'M' (optComp dm 'M' ++ optComp ds 'S')).1.getD 0,
      (groupOpt 'S' (groupOpt 'M' (optComp dm 'M' ++ optComp ds 'S')).2).1.getD 0) =
    some (compVal dh, compVal dm, compVal ds)
  rw [hM]
  show some ((Option.map digitsToNat dh).getD 0,
      (Option.map digitsToNat dm).getD 0,
      (groupOpt 'S' (optComp ds 'S')).1.getD 0) =
    some (compVal dh, compVal dm, compVal ds)
  rw [hS]
  show some ((Option.map digitsToNat dh).getD 0,
      (Option.map digitsToNat dm).getD 0,
      (Option.map digitsToNat ds).getD 0) =
    some (compVal dh, compVal dm, compVal ds)
  rw [compVal_eq_getD, compVal_eq_getD, compVal_eq_getD]

/-- `re.search` of `(\d+)H` on a well-formed duration string finds exactly
the hours component. -/
theorem searchNum_mkDur_H (dh dm ds : Option (List Char)) (h1 : validComp dh)
    (h2 : validComp dm) (h3 : validComp ds) :
    searchNum 'H' (mkDur dh dm ds) = dh.map digitsToNat := by
  rw [mkDur_eq,
    searchNum_cons_nondigit 'H' 'P' _ (by decide),
    searchNum_cons_nondigit 'H' 'T' _ (by decide)]
  cases dh with
  | some d =>
    rw [optComp_some_append,
      searchNum_hit 'H' d _ h1.1 h1.2 (by decide)]
    rfl
  | none =>
    simp only [optComp_none, List.nil_append]
    rw [searchNum_skip_comp 'H' dm 'M' _ h2 (by decide) (by decide)]
    cases ds with
    | none => rfl
    | some d =>
      have h := searchNum_skip_comp 'H' (some d) 'S' [] h3 (by decide) (by decide)
      simpa using h

/-- `re.search` of `(\d+)M` on a well-formed duration string finds exactly
the minutes component. -/
theorem searchNum_mkDur_M (dh dm ds : Option (List Char)) (h1 : validComp dh)
    (h2 : validComp dm) (h3 : validComp ds) :
    searchNum 'M' (mkDur dh dm ds) = dm.map digitsToNat := by
  rw [mkDur_eq,
    searchNum_cons_nondigit 'M' 'P' _ (by decide),
    searchNum_cons_nondigit 'M' 'T' _ (by decide),
    searchNum_skip_comp 'M' dh 'H' _ h1 (by decide) (by decide)]
  cases dm with
  | some d =>
    rw [optComp_some_append,
      searchNum_hit 'M' d _ h2.1 h2.2 (by decide)]
    rfl
  | none =>
    simp only [optComp_none, List.nil_append]
    cases ds with
    | none => rfl
    | some d =>
      have h := searchNum_skip_comp 'M' (some d) 'S' [] h3 (by decide) (by decide)
      simpa using h

/-- `re.search` of `(\d+)S` on a well-formed duration string finds exactly
the seconds component. -/
theorem searchNum_mkDur_S (dh dm ds : Option (List Char)) (h1 : validComp dh)
    (h2 : validComp dm) (h3 : validComp ds) :
    searchNum 'S' (mkDur dh dm ds) = ds.map digitsToNat := by
  rw [mkDur_eq,
    searchNum_cons_nondigit 'S' 'P' _ (by decide),
    searchNum_cons_nondigit 'S' 'T' _ (by decide),
    searchNum_skip_comp 'S' dh 'H' _ h1 (by decide) (by decide),
    searchNum_skip_comp 'S' dm 'M' _ h2 (by decide) (by decide)]
  cases ds with
  | some d =>
    have h := searchNum_hit 'S' d [] h3.1 h3.2 (by decide)
    have hsh : optComp (some d) 'S' = d ++ 'S' :: [] := by simp [optComp]
    rw [hsh, h]
    rfl
  | none => rfl

/-- A well-formed duration string is non-empty as a `String`. -/
theorem mkDur_string_ne_empty (dh dm ds : Option (List Char)) :
    String.mk (mkDur dh dm ds) ≠ "" := by
  intro h
  have h2 := congrArg String.data h
  simp [mkDur] at h2

/-- `re.match` fails exactly on strings that do not start with `PT`. -/
theorem matchPT_none_of_not_PT (l : List Char)
    (h : ¬ ∃ rest, l = 'P' :: 'T' :: rest) : matchPT l = none := by
  unfold matchPT
  split
  · rename_i rest
    exact absurd ⟨rest, rfl⟩ h
  · rfl

/-! ## Claims C3, C5, C10 -/

/-- Claim C3: for every `YouTubeAccount`, `esta_autenticado()` returns true
if and only if `token_expira` is non-null and the current time is strictly
before it; in particular it returns false whenever `token_expira` is null. -/
theorem claim_C3 (acc : YouTubeAccount) (now : Nat) :
    (estaAutenticado acc now = true ↔
      ∃ t, acc.token_expira = some t ∧ now < t) ∧
    (acc.token_expira = none → estaAutenticado acc now = false) := by
  constructor
  · unfold estaAutenticado
    cases h : acc.token_expira with
    | none => simp
    | some t => simp
  · intro h
    unfold estaAutenticado
    rw [h]

/-- Concrete instantiation of C3: a future expiry authenticates, a null
expiry does not. -/
theorem claim_C3_witness :
    estaAutenticado ⟨"UC1", some "t", "r", some 100, "c", "e", "f", 0, 0, 0⟩ 50 =
      true ∧
    estaAutenticado ⟨"UC1", some "t", "r", none, "c", "e", "f", 0, 0, 0⟩ 50 =
      false :=
  ⟨(claim_C3 ⟨"UC1", some "t", "r", some 100, "c", "e", "f", 0, 0, 0⟩ 50).1.mpr
      ⟨100, rfl, by decide⟩,
    (claim_C3 ⟨"UC1", some "t", "r", none, "c", "e", "f", 0, 0, 0⟩ 50).2 rfl⟩

/-- Claim C5: for every non-negative `duracion_segundos`,
`duracion_formateada` returns `HH:MM:SS` (fields zero-padded to two digits,
as Python `%02d` does) with hours = `d / 3600`,
minutes = `(d % 3600) / 60`, seconds = `d % 60` when hours are positive,
and `MM:SS` with the same minutes and seconds otherwise. -/
theorem claim_C5 (d : Nat) :
    duracionFormateada d =
      if d / 3600 > 0 then
        pad2 (d / 3600) ++ ":" ++ pad2 ((d % 3600) / 60) ++ ":" ++ pad2 (d % 60)
      else
        pad2 ((d % 3600) / 60) ++ ":" ++ pad2 (d % 60) := by
  rfl

/-- Claim C4: on every ISO-8601 duration of the form `PT[hH][mM][sS]` (each
component an optional non-empty digit run), `_formatear_duracion_iso`
returns `HH:MM:SS` (fields zero-padded to a minimum of two digits, as the
code's `%02d` does) when the hours component is positive and `MM:SS`
otherwise; it returns `""` on the empty string and returns the input
unchanged when the input is non-empty and does not start with the literal
`PT`. -/
theorem claim_C4 (dh dm ds : Option (List Char)) (h1 : validComp dh)
    (h2 : validComp dm) (h3 : validComp ds) :
    (formatearDuracionIso (String.mk (mkDur dh dm ds)) =
      if compVal dh > 0 then
        pad2 (compVal dh) ++ ":" ++ pad2 (compVal dm) ++ ":" ++ pad2 (compVal ds)
      else
        pad2 (compVal dm) ++ ":" ++ pad2 (compVal ds)) ∧
    formatearDuracionIso "" = "" ∧
    (∀ s : String, (¬ ∃ rest, s.toList = 'P' :: 'T' :: rest) → s ≠ "" →
      formatearDuracionIso s = s) := by
  refine ⟨?_, rfl, ?_⟩
  · unfold formatearDuracionIso
    rw [if_neg (mkDur_string_ne_empty dh dm ds)]
    have ht : (String.mk (mkDur dh dm ds)).toList = mkDur dh dm ds := rfl
    rw [ht, matchPT_mkDur dh dm ds h1 h2 h3]
    show formatHMS (compVal dh) (compVal dm) (compVal ds) =
      if compVal dh > 0 then
        pad2 (compVal dh) ++ ":" ++ pad2 (compVal dm) ++ ":" ++ pad2 (compVal ds)
      else
        pad2 (compVal dm) ++ ":" ++ pad2 (compVal ds)
    rfl
  · intro s hpt hne
    unfold formatearDuracionIso
    rw [if_neg hne, matchPT_none_of_not_PT s.toList hpt]

/-- Concrete instantiation of C4 at `PT1H5S`, `""` and `"abc"`. -/
theorem claim_C4_witness :
    formatearDuracionIso "PT1H5S" = "01:00:05" ∧
    formatearDuracionIso "" = "" ∧
    formatearDuracionIso "abc" = "abc" := by
  have h := claim_C4 (some ['1']) none (some ['5'])
    (by constructor <;> decide) trivial (by constructor <;> decide)
  refine ⟨?_, h.2.1, ?_⟩
  · have h1 := h.1
    have he : String.mk (mkDur (some ['1']) none (some ['5'])) = "PT1H5S" := by decide
    rw [he] at h1
    rw [h1]
    decide
  · refine h.2.2 "abc" ?_ (by decide)
    intro hex
    rcases hex with ⟨rest, hr⟩
    have hl : ("abc".toList) = ['a', 'b', 'c'] := rfl
    rw [hl] at hr
    injection hr with hr1 _
    exact absurd hr1 (by decide)

/-- Claim C9: the regex-search based `_formatear_duracion` and the anchored
`_formatear_duracion_iso` agree on every well-formed `PT[hH][mM][sS]`
duration string, while outside that set they can differ: on the empty
string one returns `"N/A"` and the other `""`. -/
theorem claim_C9 (dh dm ds : Option (List Char)) (h1 : validComp dh)
    (h2 : validComp dm) (h3 : validComp ds) :
    formatearDuracion (String.mk (mkDur dh dm ds)) =
      formatearDuracionIso (String.mk (mkDur dh dm ds)) ∧
    formatearDuracion "" ≠ formatearDuracionIso "" := by
  constructor
  · unfold formatearDuracion formatearDuracionIso
    rw [if_neg (mkDur_string_ne_empty dh dm ds),
      if_neg (mkDur_string_ne_empty dh dm ds)]
    have ht : (String.mk (mkDur dh dm ds)).toList = mkDur dh dm ds := rfl
    rw [ht, matchPT_mkDur dh dm ds h1 h2 h3]
    show formatHMS ((searchNum 'H' (mkDur dh dm ds)).getD 0)
        ((searchNum 'M' (mkDur dh dm ds)).getD 0)
        ((searchNum 'S' (mkDur dh dm ds)).getD 0) =
      formatHMS (compVal dh) (compVal dm) (compVal ds)
    rw [searchNum_mkDur_H dh dm ds h1 h2 h3,
      searchNum_mkDur_M dh dm ds h1 h2 h3,
      searchNum_mkDur_S dh dm ds h1 h2 h3,
      compVal_eq_getD, compVal_eq_getD, compVal_eq_getD]
  · decide

/-- Concrete instantiation of C9 at `PT2M30S` and the empty string. -/
theorem claim_C9_witness :
    formatearDuracion "PT2M30S" = formatearDuracionIso "PT2M30S" ∧
    formatearDuracion "" ≠ formatearDuracionIso "" := by
  have h := claim_C9 none (some ['2']) (some ['3', '0'])
    trivial (by constructor <;> decide) (by constructor <;> decide)
  have he : String.mk (mkDur none (some ['2']) (some ['3', '0'])) = "PT2M30S" := by
    decide
  rw [he] at h
  exact h

/-- The basename of a path: everything after the last `/` (as
`os.path.splitext` for POSIX paths only splits within the basename). -/
def baseName (l : List Char) : List Char :=
  (l.reverse.takeWhile (fun c => c ≠ '/')).reverse

/-- The extension computed by `os.path.splitext`: the part of the basename
from its last dot on, unless every character before that dot is itself a
dot (leading dots carry no extension). -/
def splitextExt (l : List Char) : List Char :=
  let b := baseName l
  let core := b.dropWhile (fun c => c = '.')
  let tl := core.reverse.takeWhile (fun c => c ≠ '.')
  if tl.length = core.length then [] else '.' :: tl.reverse

/-- The allow-list in `_validar_archivo_video`. -/
def allowedExtensions : List String :=
  [".mp4", ".mov", ".avi", ".wmv", ".flv", ".webm"]

/-- `_validar_archivo_video` (views.py lines 1122-1146): reject a file over
128MB, then reject an extension outside the allow-list, else accept.  (The
MIME check in the source is commented out / never performed.) -/
def validarArchivoVideo (size : Nat) (name : String) : Bool :=
  if size > 128 * 1024 * 1024 then false
  else if allowedExtensions.contains
      (String.mk ((splitextExt name.toList).map Char.toLower)) = false then false
  else true

example : validarArchivoVideo 1000 "video.MP4" = true := by decide
example : validarArchivoVideo 1000 "video.txt" = false := by decide
example : validarArchivoVideo 1000 ".mp4" = false := by decide
example : validarArchivoVideo 1000 "a.b.webm" = true := by decide
example : validarArchivoVideo (129 * 1024 * 1024) "video.mp4" = false := by decide

/-- An uploaded file as seen by the view: `name` and `size`. -/
structure FileUpload where
  name : String
  size : Nat
deriving Repr, DecidableEq

/-- The fields of a `VideoSubido` record created by `procesar_subida_ajax`. -/
structure VideoSubidoRec where
  titulo : String
  descripcion : String
  etiquetas : String
  categoria_id : String
  privacidad : String
  archivo_path : String
  archivo_size : Nat
  estado : String
deriving Repr, DecidableEq

/-- The POST form fields read by `procesar_subida_ajax`, each possibly
absent. -/
structure PostParams where
  titulo : Option String
  descripcion : Option String
  etiquetas : Option String
  categoria : Option String
  privacidad : Option String
deriving Repr, DecidableEq

/-- A JSON response of the AJAX endpoints: success flag, error message and
HTTP status (200 when the view passes no explicit status). -/
structure AjaxResult where
  success : Bool
  error : Option String
  status : Nat
deriving Repr, DecidableEq

/-- `procesar_subida_ajax` (views.py lines 883-955): the guard chain
(method, linked account, token validity, file present, file valid) and the
`VideoSubido` row it creates.  `savedPath` stands for the path under
`MEDIA_ROOT` the file is copied to; the background upload thread it then
starts is outside this model. -/
def procesarSubidaAjax (method : String) (acc : Option YouTubeAccount)
    (now : Nat) (file : Option FileUpload) (post : PostParams)
    (savedPath : String) (db : List VideoSubidoRec) :
    AjaxResult × List VideoSubidoRec :=
  if method ≠ "POST" then (⟨false, some "Método no permitido", 405⟩, db)
  else
    match acc with
    | none => (⟨false, some "Cuenta no vinculada", 400⟩, db)
    | some a =>
      if estaAutenticado a now = false then
        (⟨false, some "Token expirado", 401⟩, db)
      else
        match file with
        | none => (⟨false, some "No se envió archivo", 400⟩, db)
        | some f =>
          if validarArchivoVideo f.size f.name = false then
            (⟨false, some "Archivo no válido", 400⟩, db)
          else
            let r0 : VideoSubidoRec :=
              ⟨post.titulo.getD f.name, post.descripcion.getD "",
                post.etiquetas.getD "", post.categoria.getD "22",
                post.privacidad.getD "private", f.name, f.size, "pending"⟩
            let r1 := { r0 with archivo_path := savedPath }
            (⟨true, none, 200⟩, r1 :: db)

/-! ## views.py: guardar_video_busqueda and the VideoGuardado table -/

/-- The video information dict built by `_obtener_info_video_youtube`. -/
structure VideoInfo where
  titulo : String
  descripcion : String
  canal_nombre : String
  canal_id : String
  url_thumbnail : String
  fecha_publicacion : Option Nat
  vistas : Int
  likes : Int
  comentarios : Int
  duracion : String
  categoria : String
  etiquetas : String
deriving Repr, DecidableEq

/-- The fields of a `VideoGuardado` row (models.py; `unique_together` on
`(video_id, usuario)`). -/
structure VideoGuardadoRec where
  video_id : String
  usuario : Nat
  titulo : String
  descripcion : String
  canal_nombre : String
  canal_id : String
  url_thumbnail : String
  fecha_publicacion : Option Nat
  vistas : Int
  likes : Int
  comentarios : Int
  duracion : String
  categoria : String
  etiquetas : String
deriving Repr, DecidableEq

/-- The `VideoGuardado.objects.filter(video_id=..., usuario=...).exists()`
check. -/
def videoGuardadoExists (db : List VideoGuardadoRec) (vid : String)
    (user : Nat) : Bool :=
  db.any (fun r => r.video_id == vid && r.usuario == user)

/-- The row `guardar_video_busqueda` creates from the fetched video info. -/
def mkVideoGuardado (vid : String) (user : Nat) (info : VideoInfo) :
    VideoGuardadoRec :=
  ⟨vid, user, info.titulo, info.descripcion, info.canal_nombre,
    info.canal_id, info.url_thumbnail, info.fecha_publicacion, info.vistas,
    info.likes, info.comentarios, info.duracion, info.categoria,
    info.etiquetas⟩

/-- `guardar_video_busqueda` (views.py lines 1700-1756).  `body` is the
outcome of `json.loads(request.body)` giving the optional `video_id` and
the `titulo` default; `fetch` is the outcome of
`_obtener_info_video_youtube` (an `error` is an exception propagating to
the catch-all handler).  Returns the JSON result and the new table. -/
def guardarVideoBusqueda (method : String)
    (body : Except String (Option String × String)) (user : Nat)
    (fetch : Except String VideoInfo) (db : List VideoGuardadoRec) :
    AjaxResult × List VideoGuardadoRec :=
  if method ≠ "POST" then (⟨false, some "Método no permitido", 405⟩, db)
  else
    match body with
    | .error e => (⟨false, some ("Error al guardar video: " ++ e), 500⟩, db)
    | .ok (vidOpt, _titulo) =>
      match vidOpt with
      | none => (⟨false, some "ID de video requerido", 200⟩, db)
      | some vid =>
        if vid = "" then (⟨false, some "ID de video requerido", 200⟩, db)
        else if videoGuardadoExists db vid user then
          (⟨false, some "Ya tienes este video guardado", 200⟩, db)
        else
          match fetch with
          | .error e =>
            (⟨false, some ("Error al guardar video: " ++ e), 500⟩, db)
          | .ok info => (⟨true, none, 200⟩, mkVideoGuardado vid user info :: db)

/-- Two rows differ on the `unique_together` key `(video_id, usuario)`. -/
def pairDiff (r1 r2 : VideoGuardadoRec) : Prop :=
  ¬(r1.video_id = r2.video_id ∧ r1.usuario = r2.usuario)

/-- Characterization of `_validar_archivo_video`: accept exactly when the
size is within 128MB and the lower-cased extension is allowed. -/
theorem validar_iff (size : Nat) (name : String) :
    validarArchivoVideo size name = true ↔
      size ≤ 128 * 1024 * 1024 ∧
        String.mk ((splitextExt name.toList).map Char.toLower) ∈
          allowedExtensions := by
  unfold validarArchivoVideo
  split_ifs with hs hc
  · constructor
    · intro h
      exact absurd h (by simp)
    · intro h
      exact absurd h.1 (by omega)
  · constructor
    · intro h
      exact absurd h (by simp)
    · intro h
      have hct : allowedExtensions.contains
          (String.mk ((splitextExt name.toList).map Char.toLower)) = true := by
        simpa using h.2
      rw [hct] at hc
      exact absurd hc (by simp)
  · constructor
    · intro _
      refine ⟨by omega, ?_⟩
      have hct : allowedExtensions.contains
          (String.mk ((splitextExt name.toList).map Char.toLower)) = true := by
        cases hb : allowedExtensions.contains
            (String.mk ((splitextExt name.toList).map Char.toLower)) with
        | false => exact absurd hb hc
        | true => rfl
      simpa using hct
    · intro _
      rfl

/-- Claim C7: `_validar_archivo_video` accepts a file exactly when its size
is at most `128*1024*1024` bytes and its lower-cased extension is one of
`.mp4 .mov .avi .wmv .flv .webm`; and when it rejects,
`procesar_subida_ajax` answers `Archivo no válido` with HTTP 400 and
creates no `VideoSubido` row. -/
theorem claim_C7 (f : FileUpload) (a : YouTubeAccount) (now : Nat)
    (post : PostParams) (savedPath : String) (db : List VideoSubidoRec)
    (hauth : estaAutenticado a now = true)
    (hval : validarArchivoVideo f.size f.name = false) :
    procesarSubidaAjax "POST" (some a) now (some f) post savedPath db =
      (⟨false, some "Archivo no válido", 400⟩, db) ∧
    (∀ size name, validarArchivoVideo size name = true ↔
      size ≤ 128 * 1024 * 1024 ∧
        String.mk ((splitextExt name.toList).map Char.toLower) ∈
          allowedExtensions) := by
  constructor
  · simp [procesarSubidaAjax, hauth, hval]
  · exact validar_iff

/-- Concrete instantiation of C7: a `.txt` file is rejected with a 400 and
no row. -/
theorem claim_C7_witness :
    procesarSubidaAjax "POST"
        (some ⟨"UC1", some "t", "r", some 10, "c", "e", "f", 0, 0, 0⟩) 5
        (some ⟨"a.txt", 100⟩) ⟨none, none, none, none, none⟩ "p" [] =
      (⟨false, some "Archivo no válido", 400⟩, []) ∧
    (validarArchivoVideo 100 "a.txt" = true ↔
      100 ≤ 128 * 1024 * 1024 ∧
        String.mk ((splitextExt "a.txt".toList).map Char.toLower) ∈
          allowedExtensions) := by
  have h := claim_C7 ⟨"a.txt", 100⟩
    ⟨"UC1", some "t", "r", some 10, "c", "e", "f", 0, 0, 0⟩ 5
    ⟨none, none, none, none, none⟩ "p" [] (by decide) (by decide)
  exact ⟨h.1, h.2 100 "a.txt"⟩

/-- Claim C6: at most one `VideoGuardado` row per `(video_id, usuario)`
pair, and `guardar_video_busqueda` preserves this: it never creates a
duplicate (first conjunct, over every request shape); on an existing pair
it answers `success=False` / `Ya tienes este video guardado` and leaves the
table unchanged; on a new pair with a supplied `video_id` (and the info
lookup completing) it creates exactly one row. -/
theorem claim_C6 (user : Nat) (vid : String) (titulo : String)
    (fetch : Except String VideoInfo) (db : List VideoGuardadoRec)
    (hvid : vid ≠ "") :
    (∀ method body fetch2 (db2 : List VideoGuardadoRec),
      List.Pairwise pairDiff db2 →
      List.Pairwise pairDiff
        (guardarVideoBusqueda method body user fetch2 db2).2) ∧
    (videoGuardadoExists db vid user = true →
      guardarVideoBusqueda "POST" (.ok (some vid, titulo)) user fetch db =
        (⟨false, some "Ya tienes este video guardado", 200⟩, db)) ∧
    (videoGuardadoExists db vid user = false → ∀ info, fetch = .ok info →
      guardarVideoBusqueda "POST" (.ok (some vid, titulo)) user fetch db =
        (⟨true, none, 200⟩, mkVideoGuardado vid user info :: db)) := by
  refine ⟨?_, ?_, ?_⟩
  · intro method body fetch2 db2 hp
    by_cases hm : method = "POST"
    · rcases body with e | ⟨vidOpt, t⟩
      · simp [guardarVideoBusqueda, hm, hp]
      · rcases vidOpt with _ | v
        · simp [guardarVideoBusqueda, hm, hp]
        · by_cases hv : v = ""
          · simp [guardarVideoBusqueda, hm, hv, hp]
          · by_cases hex : videoGuardadoExists db2 v user = true
            · simp [guardarVideoBusqueda, hm, hv, hex, hp]
            · have hex2 : videoGuardadoExists db2 v user = false := by
                cases hb : videoGuardadoExists db2 v user with
                | false => rfl
                | true => exact absurd hb hex
              rcases fetch2 with e | info
              · simp [guardarVideoBusqueda, hm, hv, hex2, hp]
              · have hres : guardarVideoBusqueda method
                    (Except.ok (some v, t)) user (Except.ok info) db2 =
                    (⟨true, none, 200⟩, mkVideoGuardado v user info :: db2) := by
                  simp [guardarVideoBusqueda, hm, hv, hex2]
                rw [hres]
                refine List.Pairwise.cons ?_ hp
                intro r hr
                unfold videoGuardadoExists at hex2
                simp only [List.any_eq_false] at hex2
                have hnr := hex2 r hr
                simp only [Bool.and_eq_true, beq_iff_eq, not_and] at hnr
                intro hcon
                rcases hcon with ⟨h1, h2⟩
                simp only [mkVideoGuardado] at h1 h2
                exact hnr h1.symm h2.symm
    · simp [guardarVideoBusqueda, hm, hp]
  · intro hex
    simp [guardarVideoBusqueda, hvid, hex]
  · intro hex info hfetch
    simp [guardarVideoBusqueda, hvid, hex, hfetch]

/-- Concrete instantiation of C6: saving the same video twice keeps a
single row; saving into an empty table creates exactly one. -/
theorem claim_C6_witness :
    guardarVideoBusqueda "POST" (.ok (some "v1", "t")) 1
        (.ok ⟨"", "", "", "", "", none, 0, 0, 0, "", "", ""⟩)
        [mkVideoGuardado "v1" 1 ⟨"", "", "", "", "", none, 0, 0, 0, "", "", ""⟩] =
      (⟨false, some "Ya tienes este video guardado", 200⟩,
        [mkVideoGuardado "v1" 1 ⟨"", "", "", "", "", none, 0, 0, 0, "", "", ""⟩]) ∧
    guardarVideoBusqueda "POST" (.ok (some "v1", "t")) 1
        (.ok ⟨"", "", "", "", "", none, 0, 0, 0, "", "", ""⟩) [] =
      (⟨true, none, 200⟩,
        [mkVideoGuardado "v1" 1 ⟨"", "", "", "", "", none, 0, 0, 0, "", "", ""⟩]) := by
  constructor
  · exact (claim_C6 1 "v1" "t"
      (.ok ⟨"", "", "", "", "", none, 0, 0, 0, "", "", ""⟩)
      [mkVideoGuardado "v1" 1 ⟨"", "", "", "", "", none, 0, 0, 0, "", "", ""⟩]
      (by decide)).2.1 (by decide)
  · exact (claim_C6 1 "v1" "t"
      (.ok ⟨"", "", "", "", "", none, 0, 0, 0, "", "", ""⟩) []
      (by decide)).2.2 (by decide) _ rfl

/-! ## views.py: the OAuth token exchange and refresh flows -/

/-- A response of Google's token endpoint, with every field optional. -/
structure TokenResponse where
  error : Option String
  error_description : Option String
  access_token : Option String
  refresh_token : Option String
  expires_in : Option Nat
deriving Repr, DecidableEq

/-- The outcome of an outbound `requests` call, matching the three `except`
branches of the callback view. -/
inductive HttpOutcome (α : Type) where
  | ok (resp : α)
  | timeout
  | requestError (msg : String)
  | otherError (msg : String)
deriving Repr, DecidableEq

/-- The outcome of the channel-information step of the callback: the first
channel item, or one of the error paths of that step. -/
structure ChannelData where
  channel_id : String
  title : String
  thumbnail : String
  subscribers : Int
  video_count : Int
  view_count : Int
deriving Repr, DecidableEq

inductive ChannelOutcome where
  | ok (ch : ChannelData)
  | apiError (msg : String)
  | noItems
  | timeout
  | exc (msg : String)
deriving Repr, DecidableEq

/-- The result of `youtube_callback`: an error page render, or the redirect
to the dashboard. -/
inductive CallbackResult where
  | errorPage (error : String) (detalle : String)
  | redirectDashboard
deriving Repr, DecidableEq

/-- `youtube_callback` (views.py lines 79-380).  Inputs: the `error` and
`code` GET parameters, the token-endpoint outcome, the best-effort user
email (`""` when unavailable), the channel-information outcome, the current
time, and the stored `YouTubeAccount` whose `youtube_id` matches the
returned channel (or `none`).  Returns the rendered result and the stored
account afterwards.  Django-user creation and session handling have no
effect on the `YouTubeAccount` row and are outside the model. -/
def youtubeCallback (errorParam errorDesc code : Option String)
    (tokenOutcome : HttpOutcome TokenResponse) (userEmail : String)
    (channelOutcome : ChannelOutcome) (now : Nat)
    (existing : Option YouTubeAccount) :
    CallbackResult × Option YouTubeAccount :=
  match errorParam with
  | some e =>
    (.errorPage ("Error de autorización: " ++ e)
      (errorDesc.getD "Error desconocido"), existing)
  | none =>
  match code with
  | none =>
    (.errorPage "No se recibió código de autorización"
      "El usuario canceló la autorización o hubo un error en el proceso.",
      existing)
  | some _ =>
  match tokenOutcome with
  | .timeout =>
    (.errorPage "Timeout de conexión"
      "Google no respondió a tiempo. Intenta nuevamente.", existing)
  | .requestError m =>
    (.errorPage "Error de conexión" ("No se pudo conectar con Google: " ++ m),
      existing)
  | .otherError m =>
    (.errorPage "Error inesperado" ("Ocurrió un error: " ++ m), existing)
  | .ok resp =>
  match resp.error with
  | some _ =>
    (.errorPage "Error al obtener tokens de acceso"
      (resp.error_description.getD "Error desconocido al obtener tokens"),
      existing)
  | none =>
  match resp.access_token with
  | none =>
    (.errorPage "Error en la respuesta de Google"
      "No se recibió token de acceso válido.", existing)
  | some tok =>
  match channelOutcome with
  | .apiError m =>
    (.errorPage "Error al obtener datos del canal de YouTube" m, existing)
  | .noItems =>
    (.errorPage "No se encontró canal de YouTube"
      "Esta cuenta de Google no tiene un canal de YouTube asociado.",
      existing)
  | .timeout =>
    (.errorPage "Timeout de conexión"
      "YouTube no respondió a tiempo al solicitar información del canal.",
      existing)
  | .exc m =>
    (.errorPage "Error al procesar información del canal"
      ("Ocurrió un error inesperado: " ++ m), existing)
  | .ok ch =>
    let token_expira := now + resp.expires_in.getD 3600
    let rt := resp.refresh_token.getD ""
    match existing with
    | some acc =>
      (.redirectDashboard, some { acc with
        access_token := some tok,
        refresh_token := if rt ≠ "" then rt else acc.refresh_token,
        token_expira := some token_expira,
        nombre_canal := ch.title,
        email := if userEmail ≠ "" then userEmail else acc.email,
        foto_perfil := ch.thumbnail,
        suscriptores := ch.subscribers,
        videos_publicados := ch.video_count,
        vistas_totales := ch.view_count })
    | none =>
      (.redirectDashboard, some {
        youtube_id := ch.channel_id,
        access_token := some tok,
        refresh_token := rt,
        token_expira := some token_expira,
        nombre_canal := ch.title,
        email := userEmail,
        foto_perfil := ch.thumbnail,
        suscriptores := ch.subscribers,
        videos_publicados := ch.video_count,
        vistas_totales := ch.view_count })

/-- The JSON body and HTTP status answered by `refresh_youtube_token`. -/
structure RefreshViewResult where
  success : Bool
  error : Option String
  message : Option String
  needs_reauth : Bool
  status : Nat
deriving Repr, DecidableEq

/-- `refresh_youtube_token` (views.py lines 616-680): the view wrapper.
Any exception of the `requests` call lands in the generic handler
(HTTP 500). -/
def refreshYoutubeToken (acc : Option YouTubeAccount)
    (tokenOutcome : HttpOutcome TokenResponse) (now : Nat) :
    RefreshViewResult × Option YouTubeAccount :=
  match acc with
  | none =>
    (⟨false, some "No hay cuenta YouTube vinculada", none, false, 400⟩, none)
  | some a =>
    if a.refresh_token = "" then
      (⟨false, some "No se puede refrescar el token. Reautentica con YouTube.",
        none, true, 401⟩, some a)
    else
      match tokenOutcome with
      | .ok resp =>
        match resp.error with
        | some _ =>
          (⟨false, some "Error al refrescar token. Reautentica con YouTube.",
            none, true, 401⟩, some a)
        | none =>
          (⟨true, none, some "Token refrescado exitosamente", false, 200⟩,
            some { a with
              access_token := resp.access_token,
              token_expira := some (now + resp.expires_in.getD 3600) })
      | .timeout =>
        (⟨false, some "Error inesperado: timeout", none, false, 500⟩, some a)
      | .requestError m =>
        (⟨false, some ("Error inesperado: " ++ m), none, false, 500⟩, some a)
      | .otherError m =>
        (⟨false, some ("Error inesperado: " ++ m), none, false, 500⟩, some a)

/-- The dict returned by `_refresh_youtube_token_internal`: a success flag
and, when present, the `error` key (whose value can itself be Python
`None`, coming from `token_response.get('error_description')`). -/
structure InternalRefreshResult where
  success : Bool
  error : Option (Option String)
deriving Repr, DecidableEq

/-- `_refresh_youtube_token_internal` (views.py lines 1053-1084). -/
def refreshYoutubeTokenInternal (a : YouTubeAccount)
    (tokenOutcome : HttpOutcome TokenResponse) (now : Nat) :
    InternalRefreshResult × YouTubeAccount :=
  if a.refresh_token = "" then
    (⟨false, some (some "No hay refresh token")⟩, a)
  else
    match tokenOutcome with
    | .ok resp =>
      match resp.error with
      | some _ => (⟨false, some resp.error_description⟩, a)
      | none =>
        (⟨true, none⟩, { a with
          access_token := resp.access_token,
          token_expira := some (now + resp.expires_in.getD 3600) })
    | .timeout => (⟨false, some (some "timeout")⟩, a)
    | .requestError m => (⟨false, some (some m)⟩, a)
    | .otherError m => (⟨false, some (some m)⟩, a)

/-- Claim C1: whenever the token endpoint's response carries an `error`
field, the code exchange (`youtube_callback`), the refresh view
(`refresh_youtube_token`) and the internal refresh
(`_refresh_youtube_token_internal`) all return an error result and leave
the stored `YouTubeAccount` rows exactly as they were: nothing is created
and no field changes. -/
theorem claim_C1 (errorDesc : Option String) (c : String)
    (resp : TokenResponse) (e : String) (userEmail : String)
    (chOut : ChannelOutcome) (now : Nat) (db : Option YouTubeAccount)
    (a : YouTubeAccount) (herr : resp.error = some e) :
    (∃ t d, youtubeCallback none errorDesc (some c) (.ok resp) userEmail
        chOut now db = (.errorPage t d, db)) ∧
    ((refreshYoutubeToken (some a) (.ok resp) now).1.success = false ∧
      (refreshYoutubeToken (some a) (.ok resp) now).2 = some a) ∧
    ((refreshYoutubeTokenInternal a (.ok resp) now).1.success = false ∧
      (refreshYoutubeTokenInternal a (.ok resp) now).2 = a) := by
  refine ⟨?_, ?_, ?_⟩
  · refine ⟨"Error al obtener tokens de acceso",
      resp.error_description.getD "Error desconocido al obtener tokens", ?_⟩
    simp [youtubeCallback, herr]
  · by_cases hrt : a.refresh_token = ""
    · simp [refreshYoutubeToken, hrt]
    · simp [refreshYoutubeToken, hrt, herr]
  · by_cases hrt : a.refresh_token = ""
    · simp [refreshYoutubeTokenInternal, hrt]
    · simp [refreshYoutubeTokenInternal, hrt, herr]

/-- Concrete instantiation of C1: an `invalid_grant` response changes
nothing in any of the three flows. -/
theorem claim_C1_witness :
    (∃ t d, youtubeCallback none none (some "code")
        (.ok ⟨some "invalid_grant", some "Bad Request", none, none, none⟩)
        "" .noItems 0 none = (.errorPage t d, none)) ∧
    ((refreshYoutubeToken
        (some ⟨"UC1", some "t", "r", some 100, "c", "e", "f", 0, 0, 0⟩)
        (.ok ⟨some "invalid_grant", some "Bad Request", none, none, none⟩)
        0).1.success = false ∧
      (refreshYoutubeToken
        (some ⟨"UC1", some "t", "r", some 100, "c", "e", "f", 0, 0, 0⟩)
        (.ok ⟨some "invalid_grant", some "Bad Request", none, none, none⟩)
        0).2 = some ⟨"UC1", some "t", "r", some 100, "c", "e", "f", 0, 0, 0⟩) ∧
    ((refreshYoutubeTokenInternal
        ⟨"UC1", some "t", "r", some 100, "c", "e", "f", 0, 0, 0⟩
        (.ok ⟨some "invalid_grant", some "Bad Request", none, none, none⟩)
        0).1.success = false ∧
      (refreshYoutubeTokenInternal
        ⟨"UC1", some "t", "r", some 100, "c", "e", "f", 0, 0, 0⟩
        (.ok ⟨some "invalid_grant", some "Bad Request", none, none, none⟩)
        0).2 = ⟨"UC1", some "t", "r", some 100, "c", "e", "f", 0, 0, 0⟩) :=
  claim_C1 none "code"
    ⟨some "invalid_grant", some "Bad Request", none, none, none⟩
    "invalid_grant" "" .noItems 0 none
    ⟨"UC1", some "t", "r", some 100, "c", "e", "f", 0, 0, 0⟩ rfl

/-- Claim C2: on a successful token response (an `access_token` and no
`error` field), all three flows persist the tokens: the stored account's
`access_token` becomes the response's token and `token_expira` becomes the
current time plus `expires_in` seconds, `expires_in` defaulting to 3600
when the response omits it (the `.getD 3600` below).  For the callback the
channel step must have succeeded for the flow to reach persistence, and for
the refresh flows a refresh token must be stored for the endpoint to be
called at all. -/
theorem claim_C2 (errorDesc : Option String) (c : String)
    (resp : TokenResponse) (tok : String) (userEmail : String)
    (ch : ChannelData) (now : Nat) (db : Option YouTubeAccount)
    (a : YouTubeAccount) (herr : resp.error = none)
    (htok : resp.access_token = some tok) (hrt : a.refresh_token ≠ "") :
    (∃ acc2, (youtubeCallback none errorDesc (some c) (.ok resp) userEmail
        (.ok ch) now db).2 = some acc2 ∧
      acc2.access_token = some tok ∧
      acc2.token_expira = some (now + resp.expires_in.getD 3600) ∧
      (youtubeCallback none errorDesc (some c) (.ok resp) userEmail
        (.ok ch) now db).1 = .redirectDashboard) ∧
    ((refreshYoutubeToken (some a) (.ok resp) now).1.success = true ∧
      (refreshYoutubeToken (some a) (.ok resp) now).2 =
        some { a with
          access_token := some tok,
          token_expira := some (now + resp.expires_in.getD 3600) }) ∧
    ((refreshYoutubeTokenInternal a (.ok resp) now).1.success = true ∧
      (refreshYoutubeTokenInternal a (.ok resp) now).2 =
        { a with
          access_token := some tok,
          token_expira := some (now + resp.expires_in.getD 3600) }) := by
  refine ⟨?_, ?_, ?_⟩
  · cases db with
    | none =>
      refine ⟨⟨ch.channel_id, some tok, resp.refresh_token.getD "",
        some (now + resp.expires_in.getD 3600), ch.title, userEmail,
        ch.thumbnail, ch.subscribers, ch.video_count, ch.view_count⟩,
        ?_, rfl, rfl, ?_⟩
      · simp [youtubeCallback, herr, htok]
      · simp [youtubeCallback, herr, htok]
    | some acc =>
      refine ⟨{ acc with
        access_token := some tok,
        refresh_token := if resp.refresh_token.getD "" ≠ "" then
          resp.refresh_token.getD "" else acc.refresh_token,
        token_expira := some (now + resp.expires_in.getD 3600),
        nombre_canal := ch.title,
        email := if userEmail ≠ "" then userEmail else acc.email,
        foto_perfil := ch.thumbnail,
        suscriptores := ch.subscribers,
        videos_publicados := ch.video_count,
        vistas_totales := ch.view_count }, ?_, rfl, rfl, ?_⟩
      · simp [youtubeCallback, herr, htok]
      · simp [youtubeCallback, herr, htok]
  · constructor
    · simp [refreshYoutubeToken, hrt, herr]
    · simp [refreshYoutubeToken, hrt, herr, htok]
  · constructor
    · simp [refreshYoutubeTokenInternal, hrt, herr]
    · simp [refreshYoutubeTokenInternal, hrt, herr, htok]

/-- Concrete instantiation of C2: a fresh token with `expires_in = 100` is
persisted by all three flows, expiring at time `7 + 100 = 107`. -/
theorem claim_C2_witness :
    (∃ acc2, (youtubeCallback none none (some "code")
        (.ok ⟨none, none, some "AT", some "RT", some 100⟩) ""
        (.ok ⟨"UC2", "Title", "th", 1, 2, 3⟩) 7 none).2 = some acc2 ∧
      acc2.access_token = some "AT" ∧
      acc2.token_expira = some 107 ∧
      (youtubeCallback none none (some "code")
        (.ok ⟨none, none, some "AT", some "RT", some 100⟩) ""
        (.ok ⟨"UC2", "Title", "th", 1, 2, 3⟩) 7 none).1 =
          .redirectDashboard) ∧
    ((refreshYoutubeToken
        (some ⟨"UC1", some "t", "r", some 100, "c", "e", "f", 0, 0, 0⟩)
        (.ok ⟨none, none, some "AT", some "RT", some 100⟩) 7).1.success =
        true ∧
      (refreshYoutubeToken
        (some ⟨"UC1", some "t", "r", some 100, "c", "e", "f", 0, 0, 0⟩)
        (.ok ⟨none, none, some "AT", some "RT", some 100⟩) 7).2 =
        some ⟨"UC1", some "AT", "r", some 107, "c", "e", "f", 0, 0, 0⟩) ∧
    ((refreshYoutubeTokenInternal
        ⟨"UC1", some "t", "r", some 100, "c", "e", "f", 0, 0, 0⟩
        (.ok ⟨none, none, some "AT", some "RT", some 100⟩) 7).1.success =
        true ∧
      (refreshYoutubeTokenInternal
        ⟨"UC1", some "t", "r", some 100, "c", "e", "f", 0, 0, 0⟩
        (.ok ⟨none, none, some "AT", some "RT", some 100⟩) 7).2 =
        ⟨"UC1", some "AT", "r", some 107, "c", "e", "f", 0, 0, 0⟩) := by
  have h := claim_C2 none "code" ⟨none, none, some "AT", some "RT", some 100⟩
    "AT" "" ⟨"UC2", "Title", "th", 1, 2, 3⟩ 7 none
    ⟨"UC1", some "t", "r", some 100, "c", "e", "f", 0, 0, 0⟩ rfl rfl
    (by decide)
  exact h

/-! ## views.py: the estado trace of _subir_video_youtube -/

/-- A snapshot of the `VideoSubido` job: its `estado` and `mensaje_error`
(`none` while unset). -/
structure Snapshot where
  estado : String
  mensaje_error : Option String
deriving Repr, DecidableEq

/-- One poll of `youtube.videos().list(...)`: the returned `uploadStatus`
string, or an exception raised during the poll (caught by the outer
handler). -/
inductive PollOutcome where
  | ok (uploadStat : String)
  | exc (msg : String)
deriving Repr, DecidableEq

/-- The outcome of the upload call `youtube.videos().insert(...).execute()`
together with everything before it inside the `try`: success, or an
exception. -/
inductive InsertOutcome where
  | ok
  | exc (msg : String)
deriving Repr, DecidableEq

/-- The polling loop of `_subir_video_youtube`: stop with `published` on
`processed`, with `failed` (and a fixed message) on `failed`, with `failed`
on an exception; any other status moves to the next iteration, leaving the
estado at `processing`. -/
def pollLoop : List PollOutcome → List Snapshot
  | [] => []
  | .exc m :: _ => [⟨"failed", some m⟩]
  | .ok s :: rest =>
    if s = "processed" then [⟨"published", none⟩]
    else if s = "failed" then
      [⟨"failed", some "Falló el procesamiento en YouTube"⟩]
    else pollLoop rest

/-- `_subir_video_youtube` (views.py lines 1148-1235) as the sequence of
`(estado, mensaje_error)` snapshots the job goes through: it starts as
`pending` (the model field default), is set to `uploading`, then either the
upload raises (the record is failed with the message) or it succeeds
(`processing`) and the loop polls at most 30 times (`range(30)`).
Database saves are assumed to succeed; exceptions come from the API
calls. -/
def subirVideoTrace (ins : InsertOutcome) (polls : List PollOutcome) :
    List Snapshot :=
  match ins with
  | .exc m => [⟨"pending", none⟩, ⟨"uploading", none⟩, ⟨"failed", some m⟩]
  | .ok =>
    [⟨"pending", none⟩, ⟨"uploading", none⟩, ⟨"processing", none⟩] ++
      pollLoop (polls.take 30)

/-- The estado transitions the claim allows: the forward chain plus the
exception edge into `failed`. -/
def allowedStep (s1 s2 : Snapshot) : Prop :=
  (s1.estado = "pending" ∧ s2.estado = "uploading") ∨
  (s1.estado = "uploading" ∧ s2.estado = "processing") ∨
  (s1.estado = "processing" ∧
    (s2.estado = "published" ∨ s2.estado = "failed")) ∨
  (s1.estado = "uploading" ∧ s2.estado = "failed")

/-- The `ESTADO_UPLOAD` choices of `VideoSubido` (models.py lines
813-826). -/
def estadoChoices : List String :=
  ["pending", "uploading", "processing", "published", "failed"]

/-- The polling loop contributes at most one final snapshot: nothing (the
loop ran out), `published`, or `failed` with a message. -/
theorem pollLoop_shape (polls : List PollOutcome) :
    pollLoop polls = [] ∨ pollLoop polls = [⟨"published", none⟩] ∨
      ∃ m, pollLoop polls = [⟨"failed", some m⟩] := by
  induction polls with
  | nil => exact Or.inl rfl
  | cons p rest ih =>
    cases p with
    | exc m => exact Or.inr (Or.inr ⟨m, rfl⟩)
    | ok s =>
      by_cases h1 : s = "processed"
      · refine Or.inr (Or.inl ?_)
        simp [pollLoop, h1]
      · by_cases h2 : s = "failed"
        · refine Or.inr (Or.inr ⟨"Falló el procesamiento en YouTube", ?_⟩)
          simp [pollLoop, h1, h2]
        · have hstep : pollLoop (.ok s :: rest) = pollLoop rest := by
            simp [pollLoop, h1, h2]
          rw [hstep]
          exact ih

/-- Claim C8: along every run of `_subir_video_youtube`, the estado only
moves along `pending -> uploading -> processing -> (published | failed)`,
with exceptions jumping to `failed`; every `failed` snapshot carries a
`mensaje_error`; every estado stays within `ESTADO_UPLOAD`; and
`published` is only reached after `processing` appeared earlier in the
run. -/
theorem claim_C8 (ins : InsertOutcome) (polls : List PollOutcome) :
    List.Chain' allowedStep (subirVideoTrace ins polls) ∧
    (∀ snap ∈ subirVideoTrace ins polls, snap.estado ∈ estadoChoices) ∧
    (∀ snap ∈ subirVideoTrace ins polls, snap.estado = "failed" →
      snap.mensaje_error.isSome = true) ∧
    (∀ i, ∀ hi : i < (subirVideoTrace ins polls).length,
      ((subirVideoTrace ins polls).get ⟨i, hi⟩).estado = "published" →
      ∃ j, ∃ hj : j < (subirVideoTrace ins polls).length, j < i ∧
        ((subirVideoTrace ins polls).get ⟨j, hj⟩).estado = "processing") := by
  cases ins with
  | exc m =>
    refine ⟨?_, ?_, ?_, ?_⟩
    · show List.Chain' allowedStep
        [⟨"pending", none⟩, ⟨"uploading", none⟩, ⟨"failed", some m⟩]
      refine List.chain'_cons.mpr ⟨Or.inl ⟨rfl, rfl⟩, ?_⟩
      refine List.chain'_cons.mpr ⟨Or.inr (Or.inr (Or.inr ⟨rfl, rfl⟩)), ?_⟩
      exact List.chain'_singleton _
    · intro snap hs
      have hc : snap = ⟨"pending", none⟩ ∨ snap = ⟨"uploading", none⟩ ∨
          snap = ⟨"failed", some m⟩ := by
        simpa [subirVideoTrace] using hs
      rcases hc with h | h | h <;> subst h <;> simp [estadoChoices]
    · intro snap hs hfail
      have hc : snap = ⟨"pending", none⟩ ∨ snap = ⟨"uploading", none⟩ ∨
          snap = ⟨"failed", some m⟩ := by
        simpa [subirVideoTrace] using hs
      rcases hc with h | h | h <;> subst h
      · simp at hfail
      · simp at hfail
      · rfl
    · intro i hi hpub
      have hi3 : i < 3 := by simpa [subirVideoTrace] using hi
      interval_cases i <;> simp [subirVideoTrace] at hpub
  | ok =>
    rcases pollLoop_shape (polls.take 30) with hsh | hsh | ⟨m, hsh⟩
    · have htr : subirVideoTrace .ok polls =
          [⟨"pending", none⟩, ⟨"uploading", none⟩, ⟨"processing", none⟩] := by
        simp [subirVideoTrace, hsh]
      simp only [htr]
      refine ⟨?_, ?_, ?_, ?_⟩
      · refine List.chain'_cons.mpr ⟨Or.inl ⟨rfl, rfl⟩, ?_⟩
        refine List.chain'_cons.mpr ⟨Or.inr (Or.inl ⟨rfl, rfl⟩), ?_⟩
        exact List.chain'_singleton _
      · intro snap hs
        have hc : snap = ⟨"pending", none⟩ ∨ snap = ⟨"uploading", none⟩ ∨
            snap = ⟨"processing", none⟩ := by simpa using hs
        rcases hc with h | h | h <;> subst h <;> simp [estadoChoices]
      · intro snap hs hfail
        have hc : snap = ⟨"pending", none⟩ ∨ snap = ⟨"uploading", none⟩ ∨
            snap = ⟨"processing", none⟩ := by simpa using hs
        rcases hc with h | h | h <;> subst h <;> simp at hfail
      · intro i hi hpub
        have hi3 : i < 3 := by simpa using hi
        interval_cases i <;> simp [subirVideoTrace, hsh] at hpub
    · have htr : subirVideoTrace .ok polls =
          [⟨"pending", none⟩, ⟨"uploading", none⟩, ⟨"processing", none⟩,
            ⟨"published", none⟩] := by
        simp [subirVideoTrace, hsh]
      simp only [htr]
      refine ⟨?_, ?_, ?_, ?_⟩
      · refine List.chain'_cons.mpr ⟨Or.inl ⟨rfl, rfl⟩, ?_⟩
        refine List.chain'_cons.mpr ⟨Or.inr (Or.inl ⟨rfl, rfl⟩), ?_⟩
        refine List.chain'_cons.mpr
          ⟨Or.inr (Or.inr (Or.inl ⟨rfl, Or.inl rfl⟩)), ?_⟩
        exact List.chain'_singleton _
      · intro snap hs
        have hc : snap = ⟨"pending", none⟩ ∨ snap = ⟨"uploading", none⟩ ∨
            snap = ⟨"processing", none⟩ ∨ snap = ⟨"published", none⟩ := by
          simpa using hs
        rcases hc with h | h | h | h <;> subst h <;> simp [estadoChoices]
      · intro snap hs hfail
        have hc : snap = ⟨"pending", none⟩ ∨ snap = ⟨"uploading", none⟩ ∨
            snap = ⟨"processing", none⟩ ∨ snap = ⟨"published", none⟩ := by
          simpa using hs
        rcases hc with h | h | h | h <;> subst h <;> simp at hfail
      · intro i hi hpub
        have hi4 : i < 4 := by simpa using hi
        interval_cases i
        · simp [subirVideoTrace, hsh] at hpub
        · simp [subirVideoTrace, hsh] at hpub
        · simp [subirVideoTrace, hsh] at hpub
        · exact ⟨2, by decide, by omega, rfl⟩
    · have htr : subirVideoTrace .ok polls =
          [⟨"pending", none⟩, ⟨"uploading", none⟩, ⟨"processing", none⟩,
            ⟨"failed", some m⟩] := by
        simp [subirVideoTrace, hsh]
      simp only [htr]
      refine ⟨?_, ?_, ?_, ?_⟩
      · refine List.chain'_cons.mpr ⟨Or.inl ⟨rfl, rfl⟩, ?_⟩
        refine List.chain'_cons.mpr ⟨Or.inr (Or.inl ⟨rfl, rfl⟩), ?_⟩
        refine List.chain'_cons.mpr
          ⟨Or.inr (Or.inr (Or.inl ⟨rfl, Or.inr rfl⟩)), ?_⟩
        exact List.chain'_singleton _
      · intro snap hs
        have hc : snap = ⟨"pending", none⟩ ∨ snap = ⟨"uploading", none⟩ ∨
            snap = ⟨"processing", none⟩ ∨ snap = ⟨"failed", some m⟩ := by
          simpa using hs
        rcases hc with h | h | h | h <;> subst h <;> simp [estadoChoices]
      · intro snap hs hfail
        have hc : snap = ⟨"pending", none⟩ ∨ snap = ⟨"uploading", none⟩ ∨
            snap = ⟨"processing", none⟩ ∨ snap = ⟨"failed", some m⟩ := by
          simpa using hs
        rcases hc with h | h | h | h <;> subst h
        · simp at hfail
        · simp at hfail
        · simp at hfail
        · rfl
      · intro i hi hpub
        have hi4 : i < 4 := by simpa using hi
        interval_cases i <;> simp [subirVideoTrace, hsh] at hpub

/-- Concrete instantiation of C8: a run whose first poll reports
`processed` follows the allowed chain and stays within the estado
choices. -/
theorem claim_C8_witness :
    List.Chain' allowedStep
      (subirVideoTrace .ok [.ok "processed"]) ∧
    (∀ snap ∈ subirVideoTrace .ok [.ok "processed"],
      snap.estado ∈ estadoChoices) :=
  ⟨(claim_C8 .ok [.ok "processed"]).1,
    (claim_C8 .ok [.ok "processed"]).2.1⟩

end YTApp
